import Mathlib

/-!
Verification of the AQI categorization and ranking-aggregation core of
`src/main.py` (the "Air 13X" dashboard).  The definitions below are a
shallow embedding of the Python source: the category resolver
`get_aqi_category`, the OWM categorical resolver
`get_owm_aqi_forecast_category`, the health-recommendation lookup, the
per-city fetch `get_waqi_feed`, and the ranking aggregation loop that
collects results and deduplicates errors.
-/

set_option maxRecDepth 40000

/-- Model of a Python value as fed to the resolver: `None`, an `int`, a
`float` (modelled as an exact rational; IEEE `inf`/`nan` are not modelled,
no claim mentions them), or a `str`. -/
inductive PyVal where
  | none
  | int (n : Int)
  | float (q : ℚ)
  | str (s : String)
deriving DecidableEq

/-- Python `int(x)` on a float truncates toward zero. -/
def truncQ (q : ℚ) : Int := if q < 0 then -⌊-q⌋ else ⌊q⌋

/-- Value of a list of decimal digit characters, most significant first. -/
def digitsToNat (l : List Char) : Nat :=
  l.foldl (fun acc c => 10 * acc + (c.toNat - 48)) 0

/-- Strip leading and trailing whitespace, as Python `int(str)`/`float(str)`
do before parsing. -/
def pyStrip (l : List Char) : List Char :=
  ((l.dropWhile Char.isWhitespace).reverse.dropWhile Char.isWhitespace).reverse

/-- Model of Python `int(s)` on a string: optional surrounding whitespace,
optional sign, one or more decimal digits; anything else raises `ValueError`
(modelled as `none`).  Underscore digit grouping and non-ASCII digits are
not modelled; no claim mentions them. -/
def pyIntOfString? (s : String) : Option Int :=
  match pyStrip s.toList with
  | '-' :: rest =>
      if !rest.isEmpty && rest.all Char.isDigit then some (-(digitsToNat rest : Int)) else Option.none
  | '+' :: rest =>
      if !rest.isEmpty && rest.all Char.isDigit then some (digitsToNat rest : Int) else Option.none
  | l =>
      if !l.isEmpty && l.all Char.isDigit then some (digitsToNat l : Int) else Option.none

/-- Model of Python `float(s)` on a string: optional surrounding whitespace,
optional sign, decimal digits with at most one point and at least one digit
overall.  Exponent forms and `inf`/`nan` are not modelled; no claim mentions
them. -/
def pyFloatOfString? (s : String) : Option ℚ :=
  let t := pyStrip s.toList
  let (sign, body) : ℚ × List Char :=
    match t with
    | '-' :: rest => (-1, rest)
    | '+' :: rest => (1, rest)
    | l => (1, l)
  let ip := body.takeWhile (fun c => c ≠ '.')
  match body.dropWhile (fun c => c ≠ '.') with
  | [] =>
      if !ip.isEmpty && ip.all Char.isDigit then some (sign * (digitsToNat ip : ℚ)) else Option.none
  | _ :: fp =>
      if !(ip.isEmpty && fp.isEmpty) && ip.all Char.isDigit && fp.all Char.isDigit &&
          !fp.contains '.' then
        some (sign * ((digitsToNat (ip ++ fp) : ℚ) / (10 : ℚ) ^ fp.length))
      else Option.none

/-- `AQI_CATEGORIES` from `src/main.py` lines 25-29: a dict from closed
integer bands to label/color, modelled as a key-value list in insertion
order (Python dicts iterate in insertion order). -/
def AQI_CATEGORIES : List ((Int × Int) × (String × String)) :=
  [((0, 50), ("Good", "#5EC445")),
   ((51, 100), ("Moderate", "#F5E769")),
   ((101, 150), ("Unhealthy for Sensitive Groups", "#FE9B57")),
   ((151, 200), ("Unhealthy", "#FE6A69")),
   ((201, 300), ("Very Unhealthy", "#A97ABC")),
   ((301, 500), ("Hazardous", "#A06A7B"))]

/-- The band-lookup loop of `get_aqi_category` (lines 43-46): return the
first band containing `aqi`; past the loop, values above 500 reuse the
`(301, 500)` entry, everything else is Unknown.  The inner `none` arm is
unreachable because the `(301, 500)` key is present in the literal table
(in Python a missing key would raise `KeyError`). -/
def lookupAqi (aqi : Int) : String × String :=
  match AQI_CATEGORIES.find? (fun b => decide (b.1.1 ≤ aqi ∧ aqi ≤ b.1.2)) with
  | some b => b.2
  | Option.none =>
      if 500 < aqi then
        match AQI_CATEGORIES.find? (fun b => decide (b.1 = ((301 : Int), (500 : Int)))) with
        | some b => b.2
        | Option.none => ("Unknown", "#808080")
      else ("Unknown", "#808080")

/-- `get_aqi_category` from `src/main.py` lines 39-46.  `None` is Unknown;
otherwise `int(aqi)` is attempted (ints pass through, floats truncate
toward zero, strings parse as integer literals or raise, caught as
Unknown); then the band loop runs. -/
def get_aqi_category (aqi : PyVal) : String × String :=
  match aqi with
  | .none => ("Unknown", "#808080")
  | .int n => lookupAqi n
  | .float q => lookupAqi (truncQ q)
  | .str s =>
      match pyIntOfString? s with
      | some n => lookupAqi n
      | Option.none => ("Unknown", "#808080")

/-- `OWM_AQI_MAP` from `src/main.py` line 48. -/
def OWM_AQI_MAP : List (Int × String) :=
  [(1, "Good (1)"), (2, "Fair (2)"), (3, "Moderate (3)"), (4, "Poor (4)"), (5, "Very Poor (5)")]

/-- `get_owm_aqi_forecast_category` from `src/main.py` line 49:
`OWM_AQI_MAP.get(aqi_value, "Unknown")`; a missing value (`None`) is not a
key, hence Unknown. -/
def get_owm_aqi_forecast_category (aqi_value : Option Int) : String :=
  match aqi_value with
  | some n => ((OWM_AQI_MAP.find? (fun p => decide (p.1 = n))).map Prod.snd).getD "Unknown"
  | Option.none => "Unknown"

/-- A short/details pair of health-recommendation text. -/
structure Recommendation where
  short : String
  details : String
deriving DecidableEq

/-- `HEALTH_RECOMMENDATIONS` from `src/main.py` lines 30-38, as a key-value
list in insertion order. -/
def HEALTH_RECOMMENDATIONS : List (String × Recommendation) :=
  [("Good", ⟨"Air quality is satisfactory.", "It\x27s a great day to be active outside."⟩),
   ("Moderate", ⟨"Acceptable air quality.",
      "Unusually sensitive individuals: Consider reducing prolonged or heavy exertion outdoors."⟩),
   ("Unhealthy for Sensitive Groups", ⟨"Sensitive groups may experience health effects.",
      "**Sensitive groups (heart/lung disease, older adults, children):** Reduce prolonged/heavy exertion outdoors. Take more breaks.\n\n**General public:** Okay outside, watch for symptoms."⟩),
   ("Unhealthy", ⟨"Some may experience health effects; sensitive groups more serious effects.",
      "**Sensitive groups:** Avoid prolonged/heavy exertion outdoors. Move activities indoors or reschedule.\n\n**General public:** Reduce prolonged/heavy exertion outdoors."⟩),
   ("Very Unhealthy", ⟨"Health alert: Increased risk for everyone.",
      "**Sensitive groups:** Avoid all physical activity outdoors. Move activities indoors.\n\n**General public:** Avoid prolonged/heavy exertion. Consider moving activities indoors."⟩),
   ("Hazardous", ⟨"Health warning: Emergency conditions.",
      "**Everyone:** Avoid all physical activity outdoors.\n\n**Sensitive groups:** Remain indoors, keep activity low."⟩),
   ("Unknown", ⟨"AQI category could not be determined.", "Health recommendations unavailable."⟩)]

/-- The caller-side lookup `HEALTH_RECOMMENDATIONS.get(category_label,
HEALTH_RECOMMENDATIONS["Unknown"])` from `src/main.py` line 554. -/
def recommendation (label : String) : Recommendation :=
  ((HEALTH_RECOMMENDATIONS.find? (fun p => decide (p.1 = label))).map Prod.snd).getD
    ⟨"AQI category could not be determined.", "Health recommendations unavailable."⟩

/-- One usable per-station reading produced by `get_waqi_feed`:
the dict `{"name": station_name, "aqi": valid_aqi}`. -/
structure Reading where
  name : String
  aqi : Int
deriving DecidableEq

/-- The observable behaviour of the one WAQI HTTP call inside
`get_waqi_feed`: either a parsed JSON response (its `status` field, its
`data.aqi` field, its `data.city.name` field, and — when `status` is
`"error"` — the error string in `data`), a `requests` exception, or any
other exception while processing.  The same JSON key `data` carries a dict
on success and a string on error; the two readings are modelled as separate
fields. -/
inductive WaqiNet where
  | response (status : Option String) (aqiField : Option PyVal)
      (cityName : Option String) (errData : Option String)
  | requestFail (err : String)
  | otherExn (err : String)

/-- The AQI-field conversion inside `get_waqi_feed` (lines 168-170):
`int(float(aqi_data))`, with `ValueError`/`TypeError` caught as no value.
`float(None)` raises `TypeError`, ints and floats pass through `float`
unchanged, and strings go through the float parser; the final `int` call
truncates toward zero. -/
def pyNumToInt? (v : PyVal) : Option Int :=
  match v with
  | .none => Option.none
  | .int n => some n
  | .float q => some (truncQ q)
  | .str s => (pyFloatOfString? s).map truncQ

/-- `get_waqi_feed` from `src/main.py` lines 160-180, as a pure function of
the API key, the city identifier and the network behaviour.  The Python
`if not api_key` test is the empty-string test (the key is a text input).
URL-encoding of the city affects only the request, not the returned data,
and is not modelled. -/
def get_waqi_feed (api_key : String) (city_identifier : String) (net : WaqiNet) :
    Option Reading × Option String :=
  if api_key = "" then
    (Option.none, some ("Ranking Error (" ++ city_identifier ++ "): WAQI API Key missing."))
  else
    match net with
    | .requestFail err =>
        (Option.none, some ("Ranking Error (" ++ city_identifier ++ "): Request failed - " ++ err))
    | .otherExn err =>
        (Option.none, some ("Ranking Error (" ++ city_identifier ++ "): Unexpected error - " ++ err))
    | .response status aqiField cityName errData =>
      if status = some "ok" then
        let station_name := cityName.getD city_identifier
        match aqiField.bind pyNumToInt? with
        | some valid_aqi => (some ⟨station_name, valid_aqi⟩, Option.none)
        | Option.none => (Option.none, Option.none)
      else if status = some "error" then
        let error_message := errData.getD "Unknown WAQI error."
        if error_message = "Unknown station" then (Option.none, Option.none)
        else if error_message = "Invalid key" then
          (Option.none,
           some ("Ranking Error (" ++ city_identifier ++ "): Invalid WAQI API Key."))
        else
          (Option.none,
           some ("Ranking Error (" ++ city_identifier ++ "): WAQI API - " ++ error_message))
      else (Option.none, Option.none)

/-- Whether `needle` occurs at the start of `hay`. -/
def seqStartsWith : List Char → List Char → Bool
  | [], _ => true
  | _ :: _, [] => false
  | a :: as, b :: bs => a == b && seqStartsWith as bs

/-- Whether `needle` occurs contiguously anywhere in `hay`. -/
def seqContains (needle : List Char) : List Char → Bool
  | [] => seqStartsWith needle []
  | b :: bs => seqStartsWith needle (b :: bs) || seqContains needle bs

/-- Python's `needle in haystack` on strings: contiguous-substring test. -/
def substrIn (needle haystack : String) : Bool :=
  seqContains needle.toList haystack.toList

/-- The error filter of the ranking loop (`src/main.py` line 489): an error
is logged only when it is truthy (non-empty) and contains neither
`"Unknown station"` nor `"Unexpected WAQI status"`. -/
def criticalError (e : String) : Bool :=
  !(e = "") && !substrIn "Unknown station" e && !substrIn "Unexpected WAQI status" e

/-- One iteration of the `as_completed` loop (`src/main.py` lines 485-491)
on a settled fetch result `(data, error)`: a critical error is appended to
the error list; otherwise a truthy `data` is appended to the result list.
The `except` arm is dead code — `get_waqi_feed` catches every exception —
so a settled future always yields a `(data, error)` pair. -/
def rankingStep (acc : List Reading × List String) (res : Option Reading × Option String) :
    List Reading × List String :=
  match res with
  | (data, some e) =>
      if criticalError e then (acc.1, acc.2 ++ [e])
      else
        match data with
        | some d => (acc.1 ++ [d], acc.2)
        | Option.none => acc
  | (data, Option.none) =>
      match data with
      | some d => (acc.1 ++ [d], acc.2)
      | Option.none => acc

/-- The full ranking collection loop: fold the settled results (in
completion order) into `(ranking_results, ranking_errors)`, both starting
empty. -/
def rankAggregate (results : List (Option Reading × Option String)) :
    List Reading × List String :=
  results.foldl rankingStep ([], [])

/-- `unique_errors = list(set(ranking_errors))` (`src/main.py` line 493).
Python iterates a set in unspecified hash order; the model removes
duplicates in a canonical order, which fixes one of the admissible
behaviours. -/
def uniqueErrors (ranking_errors : List String) : List String :=
  ranking_errors.dedup

/-- The surfaced `ranking_error` (`src/main.py` line 494): set only when
`unique_errors` is non-empty, to the first two distinct messages joined by
`"; "` with `"..."` appended when more than two were collected. -/
def rankingErrorMsg (ranking_errors : List String) : Option String :=
  let unique_errors := uniqueErrors ranking_errors
  if unique_errors.isEmpty then Option.none
  else
    some (String.intercalate "; " (unique_errors.take 2) ++
      (if 2 < unique_errors.length then "..." else ""))

/-- The abstract per-location outcome the spec quantifies over: a fetch
succeeds with a reading, soft-fails with no usable data, or hard-fails with
an error string. -/
inductive FetchOutcome where
  | success (r : Reading)
  | softFail
  | hardFail (msg : String)
deriving DecidableEq

/-- Embed an abstract outcome as the `(data, error)` pair `get_waqi_feed`
returns for it. -/
def FetchOutcome.toResult : FetchOutcome → Option Reading × Option String
  | .success r => (some r, Option.none)
  | .softFail => (Option.none, Option.none)
  | .hardFail msg => (Option.none, some msg)

/-- The reading of a successful outcome. -/
def FetchOutcome.reading? : FetchOutcome → Option Reading
  | .success r => some r
  | _ => Option.none

/-- The message of a hard-failed outcome. -/
def FetchOutcome.hardMsg? : FetchOutcome → Option String
  | .hardFail msg => some msg
  | _ => Option.none

/-- Modelled from the spec (section 4.1, used as the refinement target of
claim C1): the six closed, inclusive, ascending US-AQI bands, with
everything else Unknown. -/
def specResolve (v : Int) : String × String :=
  if 0 ≤ v ∧ v ≤ 50 then ("Good", "#5EC445")
  else if 51 ≤ v ∧ v ≤ 100 then ("Moderate", "#F5E769")
  else if 101 ≤ v ∧ v ≤ 150 then ("Unhealthy for Sensitive Groups", "#FE9B57")
  else if 151 ≤ v ∧ v ≤ 200 then ("Unhealthy", "#FE6A69")
  else if 201 ≤ v ∧ v ≤ 300 then ("Very Unhealthy", "#A97ABC")
  else if 301 ≤ v ∧ v ≤ 500 then ("Hazardous", "#A06A7B")
  else ("Unknown", "#808080")

lemma lookupAqi_eq (n : Int) :
    lookupAqi n =
      (if 0 ≤ n ∧ n ≤ 50 then ("Good", "#5EC445")
       else if 51 ≤ n ∧ n ≤ 100 then ("Moderate", "#F5E769")
       else if 101 ≤ n ∧ n ≤ 150 then ("Unhealthy for Sensitive Groups", "#FE9B57")
       else if 151 ≤ n ∧ n ≤ 200 then ("Unhealthy", "#FE6A69")
       else if 201 ≤ n ∧ n ≤ 300 then ("Very Unhealthy", "#A97ABC")
       else if 301 ≤ n ∧ n ≤ 500 then ("Hazardous", "#A06A7B")
       else if 500 < n then ("Hazardous", "#A06A7B")
       else ("Unknown", "#808080")) := by
  split_ifs with h1 h2 h3 h4 h5 h6 h7
  · simp [lookupAqi, AQI_CATEGORIES, List.find?, h1]
  · simp [lookupAqi, AQI_CATEGORIES, List.find?, h1, h2]
  · simp [lookupAqi, AQI_CATEGORIES, List.find?, h1, h2, h3]
  · simp [lookupAqi, AQI_CATEGORIES, List.find?, h1, h2, h3, h4]
  · simp [lookupAqi, AQI_CATEGORIES, List.find?, h1, h2, h3, h4, h5]
  · simp [lookupAqi, AQI_CATEGORIES, List.find?, h1, h2, h3, h4, h5, h6]
  · simp [lookupAqi, AQI_CATEGORIES, List.find?, h1, h2, h3, h4, h5, h6, h7]
  · simp [lookupAqi, AQI_CATEGORIES, List.find?, h1, h2, h3, h4, h5, h6, h7]

lemma truncQ_of_nonneg (q : ℚ) (h : 0 ≤ q) : truncQ q = ⌊q⌋ := by
  unfold truncQ
  rw [if_neg (not_lt.mpr h)]

lemma truncQ_of_neg (q : ℚ) (h : q < 0) : truncQ q = ⌈q⌉ := by
  unfold truncQ
  rw [if_pos h]
  rfl

lemma lookupAqi_of_neg (n : Int) (h : n < 0) : lookupAqi n = ("Unknown", "#808080") := by
  rw [lookupAqi_eq]
  split_ifs <;> first | rfl | (exfalso; omega)

lemma lookupAqi_of_ge301 (n : Int) (h : 301 ≤ n) : lookupAqi n = ("Hazardous", "#A06A7B") := by
  rw [lookupAqi_eq]
  split_ifs <;> first | rfl | (exfalso; omega)

lemma get_aqi_fst_mem (v : PyVal) :
    (get_aqi_category v).1 ∈
      (["Unknown", "Good", "Moderate", "Unhealthy for Sensitive Groups", "Unhealthy",
        "Very Unhealthy", "Hazardous"] : List String) := by
  have hl : ∀ n : Int, (lookupAqi n).1 ∈
      (["Unknown", "Good", "Moderate", "Unhealthy for Sensitive Groups", "Unhealthy",
        "Very Unhealthy", "Hazardous"] : List String) := by
    intro n
    rw [lookupAqi_eq]
    split_ifs <;> simp
  cases v with
  | none => simp [get_aqi_category]
  | int n => exact hl n
  | float q => exact hl _
  | str s =>
      cases h : pyIntOfString? s with
      | none => simp [get_aqi_category, h]
      | some n =>
          have := hl n
          simpa [get_aqi_category, h] using this

/-- The reading one loop iteration appends for a settled result, if any. -/
def entryOf (res : Option Reading × Option String) : Option Reading :=
  match res with
  | (data, some e) => if criticalError e then Option.none else data
  | (data, Option.none) => data

/-- The error string one loop iteration appends for a settled result, if any. -/
def errorOf (res : Option Reading × Option String) : Option String :=
  match res with
  | (_, some e) => if criticalError e then some e else Option.none
  | (_, Option.none) => Option.none

lemma rankingStep_eq (acc : List Reading × List String) (res : Option Reading × Option String) :
    rankingStep acc res = (acc.1 ++ (entryOf res).toList, acc.2 ++ (errorOf res).toList) := by
  obtain ⟨data, err⟩ := res
  cases err with
  | none => cases data <;> simp [rankingStep, entryOf, errorOf]
  | some e => cases hc : criticalError e <;> cases data <;>
      simp [rankingStep, entryOf, errorOf, hc]

lemma foldl_rankingStep (rs : List (Option Reading × Option String))
    (acc : List Reading × List String) :
    rs.foldl rankingStep acc = (acc.1 ++ rs.filterMap entryOf, acc.2 ++ rs.filterMap errorOf) := by
  induction rs generalizing acc with
  | nil => simp
  | cons r rs ih =>
      rw [List.foldl_cons, ih, rankingStep_eq]
      cases he : entryOf r <;> cases hr : errorOf r <;>
        simp [he, hr, List.filterMap_cons]

lemma rankAggregate_eq (rs : List (Option Reading × Option String)) :
    rankAggregate rs = (rs.filterMap entryOf, rs.filterMap errorOf) := by
  simp [rankAggregate, foldl_rankingStep]

/-- C1: for every integer `v` in `[0, 500]`, `get_aqi_category` returns
exactly the (label, color) pair of the spec's band containing `v` — the six
closed, inclusive bands `[0,50]` Good through `[301,500]` Hazardous — and
exactly one band of the table contains `v` (no gap or overlap at any edge,
so in particular 50 resolves Good and 51 resolves Moderate). -/
theorem C1_band_refinement (v : Int) (h0 : 0 ≤ v) (h1 : v ≤ 500) :
    get_aqi_category (.int v) = specResolve v ∧
    (AQI_CATEGORIES.countP (fun b => decide (b.1.1 ≤ v ∧ v ≤ b.1.2))) = 1 := by
  have key : ∀ n : Nat, n ≤ 500 →
      get_aqi_category (.int (n : Int)) = specResolve (n : Int) ∧
      (AQI_CATEGORIES.countP (fun b => decide (b.1.1 ≤ (n : Int) ∧ (n : Int) ≤ b.1.2))) = 1 := by
    decide
  lift v to ℕ using h0 with n
  exact key n (by exact_mod_cast h1)

/-- Witness for C1 at the band edges 50 and 51. -/
theorem C1_band_refinement_witness :
    ((0 : Int) ≤ 50 ∧ (50 : Int) ≤ 500 ∧
      (get_aqi_category (.int 50) = specResolve 50 ∧
       (AQI_CATEGORIES.countP (fun b => decide (b.1.1 ≤ (50 : Int) ∧ (50 : Int) ≤ b.1.2))) = 1)) ∧
    ((0 : Int) ≤ 51 ∧ (51 : Int) ≤ 500 ∧
      (get_aqi_category (.int 51) = specResolve 51 ∧
       (AQI_CATEGORIES.countP (fun b => decide (b.1.1 ≤ (51 : Int) ∧ (51 : Int) ≤ b.1.2))) = 1)) :=
  ⟨⟨by decide, by decide, C1_band_refinement 50 (by decide) (by decide)⟩,
   ⟨by decide, by decide, C1_band_refinement 51 (by decide) (by decide)⟩⟩

/-- C3 counterexample: the negative float -0.5 is a negative number, yet
`int(-0.5)` truncates toward zero to 0 and the resolver classifies it Good,
not Unknown — so a negative value can be classified Good. -/
theorem C3_counterexample :
    get_aqi_category (.float (-0.5 : ℚ)) = ("Good", "#5EC445") := by
  have hq : (-0.5 : ℚ) < 0 := by norm_num
  have hceil : (⌈(-0.5 : ℚ)⌉ : Int) = 0 := by
    have hle : (⌈(-0.5 : ℚ)⌉ : Int) ≤ 0 := Int.ceil_le.mpr (by norm_num)
    have hgt : (-1 : Int) < ⌈(-0.5 : ℚ)⌉ := Int.lt_ceil.mpr (by norm_num)
    omega
  have ht : truncQ (-0.5 : ℚ) = 0 := by rw [truncQ_of_neg _ hq, hceil]
  show lookupAqi (truncQ (-0.5 : ℚ)) = ("Good", "#5EC445")
  rw [ht]
  decide

/-- C3 (amended): `None`, unparsable strings, and every number whose
truncation toward zero is a negative integer resolve to
`("Unknown", "#808080")` without raising — in particular `None`, `"abc"`
and `-5` do.  (The counterexample forces the one restriction: a negative
float strictly between -1 and 0 truncates to 0 and is classified Good, so
"every negative number" must read "every number truncating to a negative
integer", which covers all negative ints and all floats at most -1.) -/
theorem C3_amended (n : Int) (q : ℚ) (s : String)
    (hn : n < 0) (hq : q ≤ -1) (hs : pyIntOfString? s = Option.none) :
    get_aqi_category .none = ("Unknown", "#808080") ∧
    get_aqi_category (.str "abc") = ("Unknown", "#808080") ∧
    get_aqi_category (.int (-5)) = ("Unknown", "#808080") ∧
    get_aqi_category (.int n) = ("Unknown", "#808080") ∧
    get_aqi_category (.float q) = ("Unknown", "#808080") ∧
    get_aqi_category (.str s) = ("Unknown", "#808080") := by
  refine ⟨rfl, by decide, by decide, lookupAqi_of_neg n hn, ?_, ?_⟩
  · show lookupAqi (truncQ q) = ("Unknown", "#808080")
    have hq0 : q < 0 := lt_of_le_of_lt hq (by norm_num)
    have hc : (⌈q⌉ : Int) ≤ -1 := Int.ceil_le.mpr (by exact_mod_cast hq)
    rw [truncQ_of_neg _ hq0]
    exact lookupAqi_of_neg _ (by omega)
  · simp [get_aqi_category, hs]

/-- Witness for C3 (amended) at n = -5, q = -2, s = "abc". -/
theorem C3_amended_witness :
    ((-5 : Int) < 0 ∧ (-2 : ℚ) ≤ -1 ∧ pyIntOfString? "abc" = Option.none) ∧
    get_aqi_category (.int (-5)) = ("Unknown", "#808080") ∧
    get_aqi_category (.float (-2 : ℚ)) = ("Unknown", "#808080") :=
  ⟨⟨by decide, by norm_num, by decide⟩,
   (C3_amended (-5) (-2) "abc" (by decide) (by norm_num) (by decide)).2.2.2.1,
   (C3_amended (-5) (-2) "abc" (by decide) (by norm_num) (by decide)).2.2.2.2.1⟩

/-- C4: every numeric value strictly greater than 500 — integer or float —
resolves to the open-ended Hazardous ceiling `("Hazardous", "#A06A7B")`;
in particular 501 and 10000 do. -/
theorem C4_hazard_ceiling (n : Int) (q : ℚ) (hn : 500 < n) (hq : 500 < q) :
    get_aqi_category (.int n) = ("Hazardous", "#A06A7B") ∧
    get_aqi_category (.float q) = ("Hazardous", "#A06A7B") ∧
    get_aqi_category (.int 501) = ("Hazardous", "#A06A7B") ∧
    get_aqi_category (.int 10000) = ("Hazardous", "#A06A7B") := by
  refine ⟨lookupAqi_of_ge301 n (by omega), ?_, by decide, by decide⟩
  show lookupAqi (truncQ q) = ("Hazardous", "#A06A7B")
  have hq0 : (0 : ℚ) ≤ q := le_of_lt (lt_trans (by norm_num) hq)
  have hf : (500 : Int) ≤ ⌊q⌋ := Int.le_floor.mpr (by exact_mod_cast le_of_lt hq)
  rw [truncQ_of_nonneg _ hq0]
  exact lookupAqi_of_ge301 _ (by omega)

/-- Witness for C4 at n = 501 and q = 500.5. -/
theorem C4_hazard_ceiling_witness :
    ((500 : Int) < 501 ∧ (500 : ℚ) < 500.5) ∧
    get_aqi_category (.int 501) = ("Hazardous", "#A06A7B") ∧
    get_aqi_category (.float (500.5 : ℚ)) = ("Hazardous", "#A06A7B") :=
  ⟨⟨by decide, by norm_num⟩,
   (C4_hazard_ceiling 501 500.5 (by decide) (by norm_num)).1,
   (C4_hazard_ceiling 501 500.5 (by decide) (by norm_num)).2.1⟩

/-- C5 counterexample: -5 is outside [0, 500], but the resolver does not
clamp it to the nearest band (Good) — it returns Unknown. -/
theorem C5_counterexample :
    get_aqi_category (.int (-5)) = ("Unknown", "#808080") ∧
    (("Unknown", "#808080") : String × String) ≠ ("Good", "#5EC445") := by
  exact ⟨by decide, by decide⟩

/-- C5 (amended): on the US-AQI scale only the upper side clamps — every
numeric value above 500 maps to Hazardous — while values below 0 are not
clamped to the nearest band: every negative integer yields
`category_label = "Unknown"` with the neutral color, exactly as `None` and
unparsable values do. -/
theorem C5_amended (n m : Int) (s : String)
    (hn : 500 < n) (hm : m < 0) (hs : pyIntOfString? s = Option.none) :
    get_aqi_category (.int n) = ("Hazardous", "#A06A7B") ∧
    get_aqi_category (.int m) = ("Unknown", "#808080") ∧
    get_aqi_category .none = ("Unknown", "#808080") ∧
    get_aqi_category (.str s) = ("Unknown", "#808080") := by
  refine ⟨lookupAqi_of_ge301 n (by omega), lookupAqi_of_neg m hm, rfl, ?_⟩
  simp [get_aqi_category, hs]

/-- Witness for C5 (amended) at n = 501, m = -5, s = "n/a". -/
theorem C5_amended_witness :
    ((500 : Int) < 501 ∧ (-5 : Int) < 0 ∧ pyIntOfString? "n/a" = Option.none) ∧
    get_aqi_category (.int 501) = ("Hazardous", "#A06A7B") ∧
    get_aqi_category (.int (-5)) = ("Unknown", "#808080") :=
  ⟨⟨by decide, by decide, by decide⟩,
   (C5_amended 501 (-5) "n/a" (by decide) (by decide) (by decide)).1,
   (C5_amended 501 (-5) "n/a" (by decide) (by decide) (by decide)).2.1⟩

/-- C10: the resolver truncates numeric input toward zero before the band
lookup — for every non-negative float `v`, resolving `v` equals resolving
`int(v)` — so 50.9 resolves Good, not Moderate, and the numeric string
"42" is parsed and classified like the integer 42. -/
theorem C10_truncation (q : ℚ) (h : 0 ≤ q) :
    get_aqi_category (.float q) = get_aqi_category (.int (truncQ q)) ∧
    get_aqi_category (.float (50.9 : ℚ)) = ("Good", "#5EC445") ∧
    get_aqi_category (.str "42") = get_aqi_category (.int 42) := by
  refine ⟨rfl, ?_, by decide⟩
  have ht : truncQ (50.9 : ℚ) = 50 := by
    rw [truncQ_of_nonneg _ (by norm_num)]
    rw [Int.floor_eq_iff] <;> norm_num
  show lookupAqi (truncQ (50.9 : ℚ)) = ("Good", "#5EC445")
  rw [ht]
  decide

/-- Witness for C10 at q = 50.9. -/
theorem C10_truncation_witness :
    (0 : ℚ) ≤ 50.9 ∧
    get_aqi_category (.float (50.9 : ℚ)) = get_aqi_category (.int (truncQ (50.9 : ℚ))) ∧
    get_aqi_category (.float (50.9 : ℚ)) = ("Good", "#5EC445") :=
  ⟨by norm_num,
   (C10_truncation 50.9 (by norm_num)).1,
   (C10_truncation 50.9 (by norm_num)).2.1⟩

/-- C8: the OWM categorical resolver maps 1..5 to "Good (1)" .. "Very Poor
(5)", and every other integer or a missing value to "Unknown"; its lookup
table is separate from the US-AQI band table — no label of `OWM_AQI_MAP`
is ever returned by `get_aqi_category`. -/
theorem C8_owm_resolver (v : PyVal) (n : Int) (hn : n < 1 ∨ 5 < n) :
    get_owm_aqi_forecast_category (some 1) = "Good (1)" ∧
    get_owm_aqi_forecast_category (some 2) = "Fair (2)" ∧
    get_owm_aqi_forecast_category (some 3) = "Moderate (3)" ∧
    get_owm_aqi_forecast_category (some 4) = "Poor (4)" ∧
    get_owm_aqi_forecast_category (some 5) = "Very Poor (5)" ∧
    get_owm_aqi_forecast_category Option.none = "Unknown" ∧
    get_owm_aqi_forecast_category (some n) = "Unknown" ∧
    (∀ p ∈ OWM_AQI_MAP, (get_aqi_category v).1 ≠ p.2) := by
  refine ⟨by decide, by decide, by decide, by decide, by decide, rfl, ?_, ?_⟩
  · have e1 : ¬((1 : Int) = n) := by omega
    have e2 : ¬((2 : Int) = n) := by omega
    have e3 : ¬((3 : Int) = n) := by omega
    have e4 : ¬((4 : Int) = n) := by omega
    have e5 : ¬((5 : Int) = n) := by omega
    simp [get_owm_aqi_forecast_category, OWM_AQI_MAP, List.find?, e1, e2, e3, e4, e5]
  · intro p hp
    have hmem := get_aqi_fst_mem v
    simp only [List.mem_cons, List.not_mem_nil, or_false] at hmem
    fin_cases hp <;> rcases hmem with h | h | h | h | h | h | h <;> simp [h]

/-- Witness for C8 at v = 42 (an ordinary US-AQI input) and n = 7. -/
theorem C8_owm_resolver_witness :
    ((7 : Int) < 1 ∨ 5 < (7 : Int)) ∧
    get_owm_aqi_forecast_category (some 7) = "Unknown" ∧
    get_owm_aqi_forecast_category (some 1) = "Good (1)" :=
  ⟨Or.inr (by decide),
   (C8_owm_resolver (.int 42) 7 (Or.inr (by decide))).2.2.2.2.2.2.1,
   (C8_owm_resolver (.int 42) 7 (Or.inr (by decide))).1⟩

/-- C9: the health-recommendation lookup never fails — each of the six
US-AQI labels returns its own canned short/details pair, "Unknown" returns
the fixed data-unavailable pair, and any label outside the table defaults
to that same Unknown entry. -/
theorem C9_recommendation_total (label : String)
    (h : label ∉ HEALTH_RECOMMENDATIONS.map Prod.fst) :
    (∀ p ∈ HEALTH_RECOMMENDATIONS, recommendation p.1 = p.2) ∧
    recommendation "Unknown" =
      ⟨"AQI category could not be determined.", "Health recommendations unavailable."⟩ ∧
    recommendation label =
      ⟨"AQI category could not be determined.", "Health recommendations unavailable."⟩ := by
  refine ⟨by decide, by decide, ?_⟩
  simp only [HEALTH_RECOMMENDATIONS, List.map_cons, List.map_nil, List.mem_cons,
    List.not_mem_nil, or_false, not_or] at h
  obtain ⟨h1, h2, h3, h4, h5, h6, h7⟩ := h
  simp [recommendation, HEALTH_RECOMMENDATIONS, List.find?,
    Ne.symm h1, Ne.symm h2, Ne.symm h3, Ne.symm h4, Ne.symm h5, Ne.symm h6, Ne.symm h7]

/-- Witness for C9 at the out-of-table label "Bogus". -/
theorem C9_recommendation_total_witness :
    ("Bogus" ∉ HEALTH_RECOMMENDATIONS.map Prod.fst) ∧
    recommendation "Bogus" =
      ⟨"AQI category could not be determined.", "Health recommendations unavailable."⟩ :=
  ⟨by decide, (C9_recommendation_total "Bogus" (by decide)).2.2⟩

lemma entry_map_toResult (outs : List FetchOutcome) :
    (outs.map FetchOutcome.toResult).filterMap entryOf = outs.filterMap FetchOutcome.reading? := by
  induction outs with
  | nil => rfl
  | cons o t ih =>
      cases o with
      | success r =>
          simp [FetchOutcome.toResult, entryOf, FetchOutcome.reading?, List.filterMap_cons, ih]
      | softFail =>
          simp [FetchOutcome.toResult, entryOf, FetchOutcome.reading?, List.filterMap_cons, ih]
      | hardFail m =>
          cases hc : criticalError m <;>
            simp [FetchOutcome.toResult, entryOf, FetchOutcome.reading?, List.filterMap_cons, hc, ih]

lemma error_map_toResult (outs : List FetchOutcome) :
    (outs.map FetchOutcome.toResult).filterMap errorOf =
      (outs.filterMap FetchOutcome.hardMsg?).filter criticalError := by
  induction outs with
  | nil => rfl
  | cons o t ih =>
      cases o with
      | success r =>
          simp [FetchOutcome.toResult, errorOf, FetchOutcome.hardMsg?, List.filterMap_cons, ih]
      | softFail =>
          simp [FetchOutcome.toResult, errorOf, FetchOutcome.hardMsg?, List.filterMap_cons, ih]
      | hardFail m =>
          cases hc : criticalError m <;>
            simp [FetchOutcome.toResult, errorOf, FetchOutcome.hardMsg?, List.filterMap_cons,
              List.filter_cons, hc, ih]

/-- A concrete run of 20 locations: 15 fetches succeed, 3 soft-fail, and 2
hard-fail with one identical error string (the auth-failure message of a
single location identifier repeated). -/
def outcomes20 : List FetchOutcome :=
  [FetchOutcome.success ⟨"c01", 10⟩, FetchOutcome.success ⟨"c02", 20⟩,
   FetchOutcome.success ⟨"c03", 30⟩, FetchOutcome.success ⟨"c04", 40⟩,
   FetchOutcome.success ⟨"c05", 50⟩, FetchOutcome.success ⟨"c06", 60⟩,
   FetchOutcome.success ⟨"c07", 70⟩, FetchOutcome.success ⟨"c08", 80⟩,
   FetchOutcome.success ⟨"c09", 90⟩, FetchOutcome.success ⟨"c10", 100⟩,
   FetchOutcome.success ⟨"c11", 110⟩, FetchOutcome.success ⟨"c12", 120⟩,
   FetchOutcome.success ⟨"c13", 130⟩, FetchOutcome.success ⟨"c14", 140⟩,
   FetchOutcome.success ⟨"c15", 150⟩,
   FetchOutcome.softFail, FetchOutcome.softFail, FetchOutcome.softFail,
   FetchOutcome.hardFail "Ranking Error (lahore): Invalid WAQI API Key.",
   FetchOutcome.hardFail "Ranking Error (lahore): Invalid WAQI API Key."]

/-- C2 counterexample: a hard-fail string that merely contains
"Unknown station" as a substring — which `get_waqi_feed` itself produces
as a surfaced error when WAQI's error payload is, e.g.,
"Unknown station id" — is silently dropped by the ranking loop, so
`errors` is not exactly the distinct hard-fail strings (here it should be
the one-element list and is empty instead). -/
theorem C2_counterexample :
    get_waqi_feed "key" "shanghai"
        (WaqiNet.response (some "error") Option.none Option.none (some "Unknown station id")) =
      (Option.none, some "Ranking Error (shanghai): WAQI API - Unknown station id") ∧
    rankAggregate
        [(Option.none, some "Ranking Error (shanghai): WAQI API - Unknown station id")] =
      ([], []) ∧
    ([FetchOutcome.hardFail "Ranking Error (shanghai): WAQI API - Unknown station id"].filterMap
        FetchOutcome.hardMsg?) ≠ ([] : List String) := by
  refine ⟨by decide, by decide, by decide⟩

/-- C2 (amended): for every fixed list of fetch outcomes, the aggregator's
entries are exactly the successful readings, and its errors are exactly
the hard-fail strings that pass the loop's filter (non-empty, containing
neither "Unknown station" nor "Unexpected WAQI status" as a substring),
deduplicated before surfacing; soft-fails never appear.  For the concrete
20-location run (15 successes, 3 soft-fails, 2 hard-fails sharing one
string) the result has exactly 15 entries and one deduplicated error. -/
theorem C2_amended (outs : List FetchOutcome) :
    rankAggregate (outs.map FetchOutcome.toResult) =
      (outs.filterMap FetchOutcome.reading?,
       (outs.filterMap FetchOutcome.hardMsg?).filter criticalError) ∧
    (uniqueErrors ((outs.filterMap FetchOutcome.hardMsg?).filter criticalError)).Nodup ∧
    (∀ m, m ∈ uniqueErrors ((outs.filterMap FetchOutcome.hardMsg?).filter criticalError) ↔
        (m ∈ outs.filterMap FetchOutcome.hardMsg? ∧ criticalError m = true)) ∧
    (rankAggregate (outcomes20.map FetchOutcome.toResult)).1.length = 15 ∧
    uniqueErrors ((rankAggregate (outcomes20.map FetchOutcome.toResult)).2) =
      ["Ranking Error (lahore): Invalid WAQI API Key."] := by
  refine ⟨?_, List.nodup_dedup _, ?_, by decide, by decide⟩
  · rw [rankAggregate_eq, entry_map_toResult, error_map_toResult]
  · intro m
    simp [uniqueErrors, List.mem_dedup, List.mem_filter]

/-- C6: before surfacing, the collected error list is deduplicated, the
surfaced string joins at most the first two distinct messages, and the
"..." indicator is appended exactly when more than two distinct errors
were collected (no message is surfaced at all when none were). -/
theorem C6_error_surfacing (ranking_errors : List String) :
    (uniqueErrors ranking_errors).Nodup ∧
    (∀ e, e ∈ uniqueErrors ranking_errors ↔ e ∈ ranking_errors) ∧
    ((uniqueErrors ranking_errors).take 2).length ≤ 2 ∧
    (2 < (uniqueErrors ranking_errors).length →
      rankingErrorMsg ranking_errors =
        some (String.intercalate "; " ((uniqueErrors ranking_errors).take 2) ++ "...")) ∧
    ((uniqueErrors ranking_errors).length ≤ 2 → uniqueErrors ranking_errors ≠ [] →
      rankingErrorMsg ranking_errors =
        some (String.intercalate "; " ((uniqueErrors ranking_errors).take 2))) ∧
    (uniqueErrors ranking_errors = [] → rankingErrorMsg ranking_errors = Option.none) := by
  refine ⟨List.nodup_dedup _, fun e => List.mem_dedup, ?_, ?_, ?_, ?_⟩
  · simp [List.length_take]
  · intro h
    have hne : uniqueErrors ranking_errors ≠ [] := by
      intro he
      rw [he] at h
      simp at h
    simp [rankingErrorMsg, hne, h]
  · intro h hne
    have h2 : ¬ 2 < (uniqueErrors ranking_errors).length := not_lt.mpr h
    simp [rankingErrorMsg, hne, h2]
  · intro h
    simp [rankingErrorMsg, h]

/-- Witness for C6's implications on a run with four distinct errors among
five collected. -/
theorem C6_error_surfacing_witness :
    (2 < (uniqueErrors ["a", "b", "c", "a", "d"]).length) ∧
    rankingErrorMsg ["a", "b", "c", "a", "d"] =
      some (String.intercalate "; " ((uniqueErrors ["a", "b", "c", "a", "d"]).take 2) ++ "...") :=
  ⟨by decide, (C6_error_surfacing ["a", "b", "c", "a", "d"]).2.2.2.1 (by decide)⟩

/-- The auth-failure message of `get_waqi_feed` for one location
(`src/main.py` line 176): it embeds the location identifier. -/
def invalidKeyMsg (city : String) : String :=
  "Ranking Error (" ++ city ++ "): Invalid WAQI API Key."

lemma get_waqi_feed_invalid_key (api_key city : String) (hk : api_key ≠ "") :
    get_waqi_feed api_key city
        (WaqiNet.response (some "error") Option.none Option.none (some "Invalid key")) =
      (Option.none, some (invalidKeyMsg city)) := by
  simp [get_waqi_feed, hk, invalidKeyMsg]

lemma filterMaps_invalid (cities : List String) :
    (∀ c ∈ cities, criticalError (invalidKeyMsg c) = true) →
    ((cities.map (fun c => ((Option.none : Option Reading), some (invalidKeyMsg c)))).filterMap
        entryOf = []) ∧
    ((cities.map (fun c => ((Option.none : Option Reading), some (invalidKeyMsg c)))).filterMap
        errorOf = cities.map invalidKeyMsg) := by
  induction cities with
  | nil => intro _; exact ⟨rfl, rfl⟩
  | cons c cs ih =>
      intro hf
      have hc := hf c (List.mem_cons_self c cs)
      obtain ⟨ih1, ih2⟩ := ih (fun x hx => hf x (List.mem_cons_of_mem _ hx))
      refine ⟨?_, ?_⟩
      · simp [List.filterMap_cons, entryOf, hc, ih1]
      · simp [List.filterMap_cons, errorOf, hc, ih2]

lemma aggregate_invalid_key (api_key : String) (cities : List String) (hk : api_key ≠ "")
    (hf : ∀ c ∈ cities, criticalError (invalidKeyMsg c) = true) :
    rankAggregate (cities.map (fun c =>
        get_waqi_feed api_key c
          (WaqiNet.response (some "error") Option.none Option.none (some "Invalid key")))) =
      ([], cities.map invalidKeyMsg) := by
  rw [rankAggregate_eq,
    List.map_congr_left (fun c _ => get_waqi_feed_invalid_key api_key c hk)]
  obtain ⟨h1, h2⟩ := filterMaps_invalid cities hf
  rw [h1, h2]

lemma dedup_replicate (x : String) (n : Nat) (h : 0 < n) :
    (List.replicate n x).dedup = [x] := by
  induction n with
  | zero => exact absurd h (lt_irrefl 0)
  | succ n ih =>
      cases Nat.eq_zero_or_pos n with
      | inl h0 =>
          subst h0
          simp
      | inr hp =>
          rw [List.replicate_succ, List.dedup_cons_of_mem (by simp [List.mem_replicate]; omega)]
          exact ih hp

/-- C7 counterexample: the same auth failure (invalid WAQI key) on two
locations produces two distinct surfaced error strings — each message
embeds its location identifier — so the repeated auth failures do not
collapse into one single reported error string. -/
theorem C7_counterexample :
    (uniqueErrors ((rankAggregate ((["lahore", "karachi"] : List String).map (fun c =>
        get_waqi_feed "key" c
          (WaqiNet.response (some "error") Option.none Option.none (some "Invalid key"))))).2)).length
      = 2 := by
  decide

/-- C7 (amended): when the same auth failure hits every one of N
locations' fetches, no fetch aborts any sibling — every location settles
and contributes exactly its own error message — and deduplication
collapses identical messages only: repeated fetches of one identifier
collapse to one error string, while distinct identifiers keep one message
each (the message embeds the identifier). -/
theorem C7_amended (api_key : String) (cities : List String)
    (hk : api_key ≠ "")
    (hf : ∀ c ∈ cities, criticalError (invalidKeyMsg c) = true) :
    rankAggregate (cities.map (fun c =>
        get_waqi_feed api_key c
          (WaqiNet.response (some "error") Option.none Option.none (some "Invalid key")))) =
      ([], cities.map invalidKeyMsg) ∧
    (∀ m, m ∈ uniqueErrors (cities.map invalidKeyMsg) ↔ ∃ c ∈ cities, invalidKeyMsg c = m) ∧
    (uniqueErrors (cities.map invalidKeyMsg)).Nodup ∧
    (∀ c n, 0 < n → uniqueErrors ((List.replicate n c).map invalidKeyMsg) = [invalidKeyMsg c]) := by
  refine ⟨aggregate_invalid_key api_key cities hk hf, ?_, List.nodup_dedup _, ?_⟩
  · intro m
    simp [uniqueErrors, List.mem_dedup, List.mem_map]
  · intro c n hn
    rw [List.map_replicate]
    exact dedup_replicate _ _ hn

/-- Witness for C7 (amended): two distinct locations with an invalid key
each yield their own error message; two fetches of the same location
collapse to one. -/
theorem C7_amended_witness :
    ("key" ≠ "" ∧ ∀ c ∈ (["lahore", "karachi"] : List String),
        criticalError (invalidKeyMsg c) = true) ∧
    rankAggregate ((["lahore", "karachi"] : List String).map (fun c =>
        get_waqi_feed "key" c
          (WaqiNet.response (some "error") Option.none Option.none (some "Invalid key")))) =
      ([], (["lahore", "karachi"] : List String).map invalidKeyMsg) ∧
    uniqueErrors ((List.replicate 2 "lahore").map invalidKeyMsg) = [invalidKeyMsg "lahore"] :=
  ⟨⟨by decide, by decide⟩,
   (C7_amended "key" ["lahore", "karachi"] (by decide) (by decide)).1,
   (C7_amended "key" ["lahore", "karachi"] (by decide) (by decide)).2.2.2 "lahore" 2 (by decide)⟩
